import Mathlib

/-!
Verification of `graph_pearl/policies.py`: a tanh-squashed Gaussian policy head
over graph observations (`Graph_TanhGaussianPolicy`) and its deterministic
wrapper (`MakeDeterministic`).

Embedding conventions:
* the value of a 2-D torch tensor (batch rows, feature columns along the last
  dimension) is a `List (List ℝ)`;
* elementwise torch operations become maps and zips over those lists;
* the stochastic sampling of a standard-normal draw is made explicit: every
  sampling entry point receives the noise tensor `eps`, and a Gaussian draw
  with parameters `(mean, std)` has value `mean + std * eps`;
* collaborators that live in this repository but outside the shown source
  (`GraphTransformer` from `graph_pearl.graph_modules`, `TanhNormal` from
  `rlkit.torch.distributions`) are modelled from the spec, as noted on their
  declarations; the elementwise log-density of `TanhNormal` is kept abstract
  as a parameter `lp`.
-/

namespace GraphPearl

/-- The value of a 2-D torch tensor: a list of rows, each a list of real
entries; the last (innermost) dimension is the row. -/
abbrev Tensor2 : Type := List (List ℝ)

/-- Elementwise application of a scalar function to a 2-D tensor, as torch
broadcast operations (`torch.tanh`, `torch.exp`, `torch.clamp`) do. -/
def tmap (f : ℝ → ℝ) (t : Tensor2) : Tensor2 :=
  t.map (fun row => row.map f)

/-- Elementwise combination of two same-shaped 2-D tensors. -/
def tzip (f : ℝ → ℝ → ℝ) (a b : Tensor2) : Tensor2 :=
  List.zipWith (List.zipWith f) a b

/-- Elementwise combination of four same-shaped rows. -/
def zipWith4 (f : ℝ → ℝ → ℝ → ℝ → ℝ) : List ℝ → List ℝ → List ℝ → List ℝ → List ℝ
  | a :: as, b :: bs, c :: cs, d :: ds => f a b c d :: zipWith4 f as bs cs ds
  | _, _, _, _ => []

/-- Elementwise combination of four same-shaped 2-D tensors. -/
def tzip4 (f : ℝ → ℝ → ℝ → ℝ → ℝ) : Tensor2 → Tensor2 → Tensor2 → Tensor2 → Tensor2
  | a :: as, b :: bs, c :: cs, d :: ds => zipWith4 f a b c d :: tzip4 f as bs cs ds
  | _, _, _, _ => []

/-- `torch.clamp(x, lo, hi)` on a scalar entry. -/
def clamp (x lo hi : ℝ) : ℝ :=
  min (max x lo) hi

/-- `torch.tensor_split(row, 2, dim=-1)` on one row of length `n`: two
sections, the first of size `⌈n / 2⌉` (the extra element goes to the first
section when `n` is odd), the second of size `⌊n / 2⌋`. -/
def tensor_split2_row (r : List ℝ) : List ℝ × List ℝ :=
  (r.take ((r.length + 1) / 2), r.drop ((r.length + 1) / 2))

/-- `torch.tensor_split(t, 2, dim=-1)` on a 2-D tensor: split every row along
the last dimension. -/
def tensor_split2 (t : Tensor2) : Tensor2 × Tensor2 :=
  (t.map (fun r => (tensor_split2_row r).1), t.map (fun r => (tensor_split2_row r).2))

/-- `.sum(dim=-1, keepdim=True)`: sum each row, keeping the last dimension as
a singleton. -/
def sum_keepdim (t : Tensor2) : Tensor2 :=
  t.map (fun r => [r.sum])

/-- `rlkit.torch.core.np_ify`: conversion of a torch tensor to a numpy array;
it preserves the values. -/
def np_ify (t : Tensor2) : Tensor2 := t

/-- `LOG_SIG_MAX = 2` from `policies.py`. -/
def LOG_SIG_MAX : ℝ := 2

/-- `LOG_SIG_MIN = -20` from `policies.py`. -/
def LOG_SIG_MIN : ℝ := -20

/-- The `{}` info dictionary returned by `get_action` is an empty string-keyed
dictionary; an association list models it. -/
abbrev InfoDict : Type := List (String × ℝ)

/-- The elementwise log-density signature of `TanhNormal.log_prob`, kept
abstract: arguments are the Gaussian mean, the Gaussian std, the squashed
value, and its pre-tanh value. -/
abbrev LogProbFn : Type := ℝ → ℝ → ℝ → ℝ → ℝ

/-- Modelled from the spec: `TanhNormal` from rlkit's distribution utilities
(`rlkit.torch.distributions`, of this repository but not under the shown
source) — the "tanh-squashed Gaussian": the distribution of `tanh(Z)` with
`Z ~ Normal(normal_mean, normal_std)`. -/
structure TanhNormal where
  normal_mean : Tensor2
  normal_std : Tensor2

/-- The pre-tanh value of a draw with standard-normal noise `eps`:
`mean + std * eps`. -/
def TanhNormal.pre_tanh (d : TanhNormal) (eps : Tensor2) : Tensor2 :=
  tzip (fun m se => m + se) d.normal_mean (tzip (fun s e => s * e) d.normal_std eps)

/-- `TanhNormal.sample()`: tanh of a Gaussian draw, with the noise explicit. -/
noncomputable def TanhNormal.sample (d : TanhNormal) (eps : Tensor2) : Tensor2 :=
  tmap Real.tanh (d.pre_tanh eps)

/-- `TanhNormal.rsample()`: the reparameterized sampler; it produces the same
value as `sample`, differing only in gradient tracking. -/
noncomputable def TanhNormal.rsample (d : TanhNormal) (eps : Tensor2) : Tensor2 :=
  tmap Real.tanh (d.pre_tanh eps)

/-- `TanhNormal.sample(return_pretanh_value=True)`. -/
noncomputable def TanhNormal.sample_with_pre (d : TanhNormal) (eps : Tensor2) : Tensor2 × Tensor2 :=
  (d.sample eps, d.pre_tanh eps)

/-- `TanhNormal.rsample(return_pretanh_value=True)`. -/
noncomputable def TanhNormal.rsample_with_pre (d : TanhNormal) (eps : Tensor2) : Tensor2 × Tensor2 :=
  (d.rsample eps, d.pre_tanh eps)

/-- `TanhNormal.log_prob(value, pre_tanh_value)`: the elementwise log-density,
abstract through `lp`, applied at the distribution parameters and the given
value and pre-tanh value. -/
def TanhNormal.log_prob (lp : LogProbFn) (d : TanhNormal) (value pre : Tensor2) : Tensor2 :=
  tzip4 lp d.normal_mean d.normal_std value pre

/-- The configuration with which `Graph_TanhGaussianPolicy.__init__` constructs
its `GraphTransformer`: the two input-node dimensions (for `Node.STATE_IN` and
`Node.LATENT_IN`), the inner node dimension and edge count, the output
dimension, and the number of convolution iterations. -/
structure GTConfig where
  state_in_dim : Nat
  latent_in_dim : Nat
  inner_node_dim : Nat
  inner_node_edges : Nat
  out_dim : Nat
  conv_iterations : Nat
deriving DecidableEq

/-- Modelled from the spec: `GraphTransformer` from `graph_pearl.graph_modules`
(of this repository but not under the shown source) — "a graph neural network"
producing the policy head's features: for every input graph it yields a batched
feature tensor whose rows have the configured output dimension. -/
structure GraphTransformer (Graph : Type) where
  cfg : GTConfig
  apply : Graph → Tensor2
  h_out : ∀ g : Graph, ∀ r ∈ apply g, r.length = cfg.out_dim

/-- The state of a `Graph_TanhGaussianPolicy`: the six attributes stored by
`__init__` plus the `GraphTransformer` module. -/
structure Graph_TanhGaussianPolicy (Graph : Type) where
  inner_node_dim : Nat
  inner_node_edges : Nat
  conv_iterations : Nat
  state_dim : Nat
  latent_dim : Nat
  action_dim : Nat
  module : GraphTransformer Graph

/-- `Graph_TanhGaussianPolicy.__init__`: stores the six dimensions and builds
the `GraphTransformer` with input node dimensions `state_dim` and `latent_dim`
and output dimension `2 * action_dim`. The constructor of the (unshown)
`GraphTransformer` is the collaborator `mkGT`. -/
def Graph_TanhGaussianPolicy.init {Graph : Type}
    (mkGT : GTConfig → GraphTransformer Graph)
    (inner_node_dim inner_node_edges conv_iterations state_dim latent_dim action_dim : Nat) :
    Graph_TanhGaussianPolicy Graph :=
  { inner_node_dim := inner_node_dim
    inner_node_edges := inner_node_edges
    conv_iterations := conv_iterations
    state_dim := state_dim
    latent_dim := latent_dim
    action_dim := action_dim
    module := mkGT
      { state_in_dim := state_dim
        latent_in_dim := latent_dim
        inner_node_dim := inner_node_dim
        inner_node_edges := inner_node_edges
        out_dim := 2 * action_dim
        conv_iterations := conv_iterations } }

/-- The eight-component return value of `Graph_TanhGaussianPolicy.forward`, in
source order. -/
structure ForwardOut where
  action : Tensor2
  mean : Tensor2
  log_std : Tensor2
  log_prob : Option Tensor2
  expected_log_prob : Option Tensor2
  std : Tensor2
  mean_action_log_prob : Option Tensor2
  pre_tanh_value : Option Tensor2

/-- The body of `Graph_TanhGaussianPolicy.forward` applied to the
`GraphTransformer` output `out`: split into mean and log-std halves, clamp the
log-std, exponentiate, then either squash the mean (deterministic) or sample
from the tanh-squashed Gaussian, optionally with the log-probability. -/
noncomputable def forwardVec (lp : LogProbFn) (out : Tensor2)
    (reparameterize deterministic return_log_prob : Bool) (eps : Tensor2) :
    ForwardOut :=
  let split := tensor_split2 out
  let mean := split.1
  let log_std := tmap (fun x => clamp x LOG_SIG_MIN LOG_SIG_MAX) split.2
  let std := tmap Real.exp log_std
  if deterministic then
    { action := tmap Real.tanh mean
      mean := mean
      log_std := log_std
      log_prob := none
      expected_log_prob := none
      std := std
      mean_action_log_prob := none
      pre_tanh_value := none }
  else
    let tanh_normal : TanhNormal := { normal_mean := mean, normal_std := std }
    if return_log_prob then
      let ap :=
        if reparameterize then tanh_normal.rsample_with_pre eps
        else tanh_normal.sample_with_pre eps
      let log_prob :=
        sum_keepdim (TanhNormal.log_prob lp tanh_normal ap.1 ap.2)
      { action := ap.1
        mean := mean
        log_std := log_std
        log_prob := some log_prob
        expected_log_prob := none
        std := std
        mean_action_log_prob := none
        pre_tanh_value := some ap.2 }
    else
      { action := if reparameterize then tanh_normal.rsample eps else tanh_normal.sample eps
        mean := mean
        log_std := log_std
        log_prob := none
        expected_log_prob := none
        std := std
        mean_action_log_prob := none
        pre_tanh_value := none }

/-- `Graph_TanhGaussianPolicy.forward`: runs the module on the graph and feeds
its output through the policy-head body. -/
noncomputable def Graph_TanhGaussianPolicy.forward {Graph : Type}
    (P : Graph_TanhGaussianPolicy Graph) (lp : LogProbFn) (g : Graph)
    (reparameterize deterministic return_log_prob : Bool) (eps : Tensor2) :
    ForwardOut :=
  forwardVec lp (P.module.apply g) reparameterize deterministic return_log_prob eps

/-- `Graph_TanhGaussianPolicy.get_actions`: the first component of `forward`
(with the flag defaults `reparameterize=False`, `return_log_prob=False`),
converted to numpy. -/
noncomputable def Graph_TanhGaussianPolicy.get_actions {Graph : Type}
    (P : Graph_TanhGaussianPolicy Graph) (lp : LogProbFn) (g : Graph)
    (deterministic : Bool) (eps : Tensor2) : Tensor2 :=
  np_ify (P.forward lp g false deterministic false eps).action

/-- `actions[0, :]` on a numpy array: the first row; `none` models the
`IndexError` an empty batch would raise. -/
def npRow0 (t : Tensor2) : Option (List ℝ) :=
  t.head?

/-- `Graph_TanhGaussianPolicy.get_action`: the first row of `get_actions`
paired with the empty info dictionary. -/
noncomputable def Graph_TanhGaussianPolicy.get_action {Graph : Type}
    (P : Graph_TanhGaussianPolicy Graph) (lp : LogProbFn) (g : Graph)
    (deterministic : Bool) (eps : Tensor2) : Option (List ℝ × InfoDict) :=
  (npRow0 (P.get_actions lp g deterministic eps)).map (fun a => (a, ([] : InfoDict)))

/-- `MakeDeterministic`: wraps a stochastic policy, storing it. -/
structure MakeDeterministic (Graph : Type) where
  stochastic_policy : Graph_TanhGaussianPolicy Graph

/-- `MakeDeterministic.get_action`: delegate with `deterministic=True`. -/
noncomputable def MakeDeterministic.get_action {Graph : Type}
    (w : MakeDeterministic Graph) (lp : LogProbFn) (observation : Graph)
    (eps : Tensor2) : Option (List ℝ × InfoDict) :=
  w.stochastic_policy.get_action lp observation true eps

/-- `MakeDeterministic.get_actions`: delegate with `deterministic=True`. -/
noncomputable def MakeDeterministic.get_actions {Graph : Type}
    (w : MakeDeterministic Graph) (lp : LogProbFn) (observations : Graph)
    (eps : Tensor2) : Tensor2 :=
  w.stochastic_policy.get_actions lp observations true eps

/-- Effectful view of `forward`: a Python method may mutate `self`, so it maps
a state to a state and a result; the body of `forward` contains no attribute
assignment, so the state component comes back unchanged. The third component
tells whether autograd recorded the call, which torch does exactly when the
ambient gradient mode is on. -/
noncomputable def Graph_TanhGaussianPolicy.forward_eff {Graph : Type}
    (P : Graph_TanhGaussianPolicy Graph) (lp : LogProbFn) (gradMode : Bool) (g : Graph)
    (reparameterize deterministic return_log_prob : Bool) (eps : Tensor2) :
    Graph_TanhGaussianPolicy Graph × ForwardOut × Bool :=
  (P, P.forward lp g reparameterize deterministic return_log_prob eps, gradMode)

/-- Effectful view of `get_actions`: the `@torch.no_grad()` decorator runs the
body with gradient mode off, whatever the ambient mode. -/
noncomputable def Graph_TanhGaussianPolicy.get_actions_eff {Graph : Type}
    (P : Graph_TanhGaussianPolicy Graph) (lp : LogProbFn) (gradMode : Bool) (g : Graph)
    (deterministic : Bool) (eps : Tensor2) :
    Graph_TanhGaussianPolicy Graph × Tensor2 × Bool :=
  let inner := P.forward_eff lp false g false deterministic false eps
  (inner.1, np_ify inner.2.1.action, inner.2.2)

/-- Effectful view of `get_action`: calls `get_actions`, then indexes the numpy
result, which is outside autograd. -/
noncomputable def Graph_TanhGaussianPolicy.get_action_eff {Graph : Type}
    (P : Graph_TanhGaussianPolicy Graph) (lp : LogProbFn) (gradMode : Bool) (g : Graph)
    (deterministic : Bool) (eps : Tensor2) :
    Graph_TanhGaussianPolicy Graph × Option (List ℝ × InfoDict) × Bool :=
  let inner := P.get_actions_eff lp gradMode g deterministic eps
  (inner.1, (npRow0 inner.2.1).map (fun a => (a, ([] : InfoDict))), inner.2.2)

/-- Effectful view of `MakeDeterministic.get_action`: pure delegation. -/
noncomputable def MakeDeterministic.get_action_eff {Graph : Type}
    (w : MakeDeterministic Graph) (lp : LogProbFn) (gradMode : Bool) (g : Graph)
    (eps : Tensor2) :
    MakeDeterministic Graph × Option (List ℝ × InfoDict) × Bool :=
  let inner := w.stochastic_policy.get_action_eff lp gradMode g true eps
  ({ stochastic_policy := inner.1 }, inner.2)

/-- Effectful view of `MakeDeterministic.get_actions`: pure delegation. -/
noncomputable def MakeDeterministic.get_actions_eff {Graph : Type}
    (w : MakeDeterministic Graph) (lp : LogProbFn) (gradMode : Bool) (g : Graph)
    (eps : Tensor2) :
    MakeDeterministic Graph × Tensor2 × Bool :=
  let inner := w.stochastic_policy.get_actions_eff lp gradMode g true eps
  ({ stochastic_policy := inner.1 }, inner.2)

/-- Exception-aware view of `forward` when the graph-module collaborator may
fail: the body has no `try`, `raise`, or validation of its own, so it only
propagates the collaborator's outcome. -/
noncomputable def forward_ex {Graph : Type} (mEx : Graph → Except String Tensor2)
    (lp : LogProbFn) (g : Graph) (reparameterize deterministic return_log_prob : Bool)
    (eps : Tensor2) : Except String ForwardOut := do
  let out ← mEx g
  pure (forwardVec lp out reparameterize deterministic return_log_prob eps)

/-- Exception-aware view of `get_actions`. -/
noncomputable def get_actions_ex {Graph : Type} (mEx : Graph → Except String Tensor2)
    (lp : LogProbFn) (g : Graph) (deterministic : Bool) (eps : Tensor2) :
    Except String Tensor2 := do
  let o ← forward_ex mEx lp g false deterministic false eps
  pure (np_ify o.action)

/-- Exception-aware view of `get_action`. -/
noncomputable def get_action_ex {Graph : Type} (mEx : Graph → Except String Tensor2)
    (lp : LogProbFn) (g : Graph) (deterministic : Bool) (eps : Tensor2) :
    Except String (Option (List ℝ × InfoDict)) := do
  let a ← get_actions_ex mEx lp g deterministic eps
  pure ((npRow0 a).map (fun x => (x, ([] : InfoDict))))

/-- Exception-aware view of `MakeDeterministic.get_action`. -/
noncomputable def makeDeterministic_get_action_ex {Graph : Type}
    (mEx : Graph → Except String Tensor2) (lp : LogProbFn) (g : Graph) (eps : Tensor2) :
    Except String (Option (List ℝ × InfoDict)) :=
  get_action_ex mEx lp g true eps

/-- Exception-aware view of `MakeDeterministic.get_actions`. -/
noncomputable def makeDeterministic_get_actions_ex {Graph : Type}
    (mEx : Graph → Except String Tensor2) (lp : LogProbFn) (g : Graph) (eps : Tensor2) :
    Except String Tensor2 :=
  get_actions_ex mEx lp g true eps

/-- A concrete transformer over the one-point graph type, for instantiating
theorems: it outputs the single row `[0, 0]`. -/
def GT0 : GraphTransformer Unit :=
  { cfg :=
      { state_in_dim := 1, latent_in_dim := 1, inner_node_dim := 1,
        inner_node_edges := 1, out_dim := 2, conv_iterations := 1 }
    apply := fun _ => [[0, 0]]
    h_out := by
      intro g r hr
      rw [List.mem_singleton] at hr
      subst hr
      rfl }

/-- A concrete policy built on `GT0`, with `action_dim = 1`. -/
def P0 : Graph_TanhGaussianPolicy Unit :=
  { inner_node_dim := 1, inner_node_edges := 1, conv_iterations := 1,
    state_dim := 1, latent_dim := 1, action_dim := 1, module := GT0 }

/-- A concrete elementwise log-density. -/
def lp0 : LogProbFn := fun _ _ _ _ => 0

/-- A concrete `GraphTransformer` constructor over the one-point graph type:
for each configuration it outputs one row of zeros of the configured output
dimension. -/
def mkGT0 : GTConfig → GraphTransformer Unit := fun c =>
  { cfg := c
    apply := fun _ => [List.replicate c.out_dim 0]
    h_out := by
      intro g r hr
      rw [List.mem_singleton] at hr
      subst hr
      exact List.length_replicate _ _ }

/-- `tanh` stays strictly inside `(-1, 1)`. -/
theorem tanh_mem_Ioo (x : ℝ) : -1 < Real.tanh x ∧ Real.tanh x < 1 := by
  rw [Real.tanh_eq_sinh_div_cosh]
  have hc := Real.cosh_pos x
  constructor
  · rw [lt_div_iff₀ hc]
    have h := Real.sinh_lt_cosh (-x)
    rw [Real.sinh_neg, Real.cosh_neg] at h
    linarith
  · rw [div_lt_one hc]
    exact Real.sinh_lt_cosh x

/-- Every entry of `tmap f t` is `f` of some real. -/
theorem mem_tmap {f : ℝ → ℝ} {t : Tensor2} {row : List ℝ}
    (h : row ∈ tmap f t) {a : ℝ} (ha : a ∈ row) : ∃ x, a = f x := by
  rcases List.mem_map.mp h with ⟨r, _, rfl⟩
  rcases List.mem_map.mp ha with ⟨x, _, rfl⟩
  exact ⟨x, rfl⟩

/-- Two stacked elementwise maps fuse. -/
theorem tmap_tmap (f h : ℝ → ℝ) (t : Tensor2) :
    tmap f (tmap h t) = tmap (fun x => f (h x)) t := by
  simp [tmap, List.map_map, Function.comp]

/-- The clamped log-std entry lies in `[LOG_SIG_MIN, LOG_SIG_MAX]`. -/
theorem clamp_log_sig_bounds (x : ℝ) :
    LOG_SIG_MIN ≤ clamp x LOG_SIG_MIN LOG_SIG_MAX
    ∧ clamp x LOG_SIG_MIN LOG_SIG_MAX ≤ LOG_SIG_MAX := by
  unfold clamp LOG_SIG_MIN LOG_SIG_MAX
  refine ⟨le_min (le_trans ?_ (le_max_right x (-20))) (by norm_num), min_le_right _ _⟩
  exact le_refl _

/-- The `mean`, `log_std` and `std` components of `forward` do not depend on
the flags: they are the split of the module output, its clamped second half,
and the exponential of that. -/
theorem forward_moments {Graph : Type}
    (P : Graph_TanhGaussianPolicy Graph) (lp : LogProbFn) (g : Graph)
    (rep det rlp : Bool) (eps : Tensor2) :
    (P.forward lp g rep det rlp eps).mean = (tensor_split2 (P.module.apply g)).1
    ∧ (P.forward lp g rep det rlp eps).log_std
        = tmap (fun x => clamp x LOG_SIG_MIN LOG_SIG_MAX) (tensor_split2 (P.module.apply g)).2
    ∧ (P.forward lp g rep det rlp eps).std
        = tmap Real.exp
            (tmap (fun x => clamp x LOG_SIG_MIN LOG_SIG_MAX) (tensor_split2 (P.module.apply g)).2) := by
  cases det <;> cases rlp <;> cases rep <;>
    simp [Graph_TanhGaussianPolicy.forward, forwardVec]

/-- In every branch of `forward` the action is an elementwise `tanh`: of the
mean when deterministic, of the Gaussian draw otherwise. -/
theorem forward_action_eq_tanh {Graph : Type}
    (P : Graph_TanhGaussianPolicy Graph) (lp : LogProbFn) (g : Graph)
    (rep det rlp : Bool) (eps : Tensor2) :
    (P.forward lp g rep det rlp eps).action
      = tmap Real.tanh
          (if det then (tensor_split2 (P.module.apply g)).1
           else
             TanhNormal.pre_tanh
               { normal_mean := (tensor_split2 (P.module.apply g)).1
                 normal_std := tmap Real.exp
                   (tmap (fun x => clamp x LOG_SIG_MIN LOG_SIG_MAX)
                     (tensor_split2 (P.module.apply g)).2) } eps) := by
  cases det <;> cases rlp <;> cases rep <;>
    simp [Graph_TanhGaussianPolicy.forward, forwardVec,
      TanhNormal.rsample_with_pre, TanhNormal.sample_with_pre,
      TanhNormal.rsample, TanhNormal.sample]

/-- C1: with `deterministic=True`, `forward` returns `action = tanh(mean)`,
where `mean` is the first half of the `GraphTransformer` output split along
the last dimension; the right-hand sides mention neither `reparameterize` nor
`return_log_prob` nor the sampling noise `eps` nor the log-density `lp`, so
the action is a deterministic function of the graph and the network alone. -/
theorem forward_deterministic_action_eq_tanh_mean {Graph : Type}
    (P : Graph_TanhGaussianPolicy Graph) (lp : LogProbFn) (g : Graph)
    (reparameterize return_log_prob : Bool) (eps : Tensor2) :
    (P.forward lp g reparameterize true return_log_prob eps).action
      = tmap Real.tanh (tensor_split2 (P.module.apply g)).1
    ∧ (P.forward lp g reparameterize true return_log_prob eps).mean
      = (tensor_split2 (P.module.apply g)).1 := by
  constructor <;> simp [Graph_TanhGaussianPolicy.forward, forwardVec]

/-- C4: with `deterministic=False`, the action is a draw from
`TanhNormal(mean, std)` with `std = exp(clamped log_std)`: the reparameterized
sampler `rsample` when `reparameterize=True`, the plain sampler otherwise, and
in either case the value is `tanh(z)` where `z = mean + std * eps` is the
Gaussian draw with that mean and standard deviation. -/
theorem forward_stochastic_action_is_tanhNormal_draw {Graph : Type}
    (P : Graph_TanhGaussianPolicy Graph) (lp : LogProbFn) (g : Graph)
    (return_log_prob : Bool) (eps : Tensor2) :
    (P.forward lp g true false return_log_prob eps).action
      = TanhNormal.rsample
          { normal_mean := (tensor_split2 (P.module.apply g)).1
            normal_std := tmap Real.exp
              (tmap (fun x => clamp x LOG_SIG_MIN LOG_SIG_MAX)
                (tensor_split2 (P.module.apply g)).2) } eps
    ∧ (P.forward lp g false false return_log_prob eps).action
      = TanhNormal.sample
          { normal_mean := (tensor_split2 (P.module.apply g)).1
            normal_std := tmap Real.exp
              (tmap (fun x => clamp x LOG_SIG_MIN LOG_SIG_MAX)
                (tensor_split2 (P.module.apply g)).2) } eps
    ∧ (∀ d : TanhNormal, TanhNormal.rsample d eps = tmap Real.tanh (d.pre_tanh eps))
    ∧ (∀ d : TanhNormal, TanhNormal.sample d eps = tmap Real.tanh (d.pre_tanh eps)) := by
  refine ⟨?_, ?_, fun d => rfl, fun d => rfl⟩ <;>
    cases return_log_prob <;>
      simp [Graph_TanhGaussianPolicy.forward, forwardVec,
        TanhNormal.rsample_with_pre, TanhNormal.sample_with_pre,
        TanhNormal.rsample, TanhNormal.sample]

/-- C5: `MakeDeterministic` is a pure delegation: its `get_action` and
`get_actions` return exactly the wrapped policy's methods called with
`deterministic=True`. -/
theorem makeDeterministic_delegates {Graph : Type}
    (w : MakeDeterministic Graph) (lp : LogProbFn) (observation : Graph)
    (eps : Tensor2) :
    w.get_action lp observation eps
      = w.stochastic_policy.get_action lp observation true eps
    ∧ w.get_actions lp observation eps
      = w.stochastic_policy.get_actions lp observation true eps :=
  ⟨rfl, rfl⟩

/-- C7: `expected_log_prob` and `mean_action_log_prob` are `None` on every
call; `log_prob` and `pre_tanh_value` are `None` unless `deterministic=False`
and `return_log_prob=True`, in which case `pre_tanh_value` is the sampled
pre-tanh value and `log_prob` is `TanhNormal(mean, std).log_prob` of the
sampled action given that pre-tanh value, summed over the last dimension with
`keepdim=True`. -/
theorem forward_optional_outputs {Graph : Type}
    (P : Graph_TanhGaussianPolicy Graph) (lp : LogProbFn) (g : Graph)
    (rep det rlp : Bool) (eps : Tensor2) :
    (P.forward lp g rep det rlp eps).expected_log_prob = none
    ∧ (P.forward lp g rep det rlp eps).mean_action_log_prob = none
    ∧ (P.forward lp g rep det rlp eps).log_prob
        = (if det then
            (none : Option Tensor2)
          else if rlp then
            some (sum_keepdim (TanhNormal.log_prob lp
              { normal_mean := (tensor_split2 (P.module.apply g)).1
                normal_std := tmap Real.exp
                  (tmap (fun x => clamp x LOG_SIG_MIN LOG_SIG_MAX)
                    (tensor_split2 (P.module.apply g)).2) }
              (tmap Real.tanh (TanhNormal.pre_tanh
                { normal_mean := (tensor_split2 (P.module.apply g)).1
                  normal_std := tmap Real.exp
                    (tmap (fun x => clamp x LOG_SIG_MIN LOG_SIG_MAX)
                      (tensor_split2 (P.module.apply g)).2) } eps))
              (TanhNormal.pre_tanh
                { normal_mean := (tensor_split2 (P.module.apply g)).1
                  normal_std := tmap Real.exp
                    (tmap (fun x => clamp x LOG_SIG_MIN LOG_SIG_MAX)
                      (tensor_split2 (P.module.apply g)).2) } eps)))
          else none)
    ∧ (P.forward lp g rep det rlp eps).pre_tanh_value
        = (if det then
            (none : Option Tensor2)
          else if rlp then
            some (TanhNormal.pre_tanh
              { normal_mean := (tensor_split2 (P.module.apply g)).1
                normal_std := tmap Real.exp
                  (tmap (fun x => clamp x LOG_SIG_MIN LOG_SIG_MAX)
                    (tensor_split2 (P.module.apply g)).2) } eps)
          else none) := by
  cases det <;> cases rlp <;> cases rep <;>
    simp [Graph_TanhGaussianPolicy.forward, forwardVec,
      TanhNormal.rsample_with_pre, TanhNormal.sample_with_pre,
      TanhNormal.rsample, TanhNormal.sample]

/-- C8: `get_action` returns the first row of the numpy-converted action batch
produced by `get_actions`, paired with the empty info dictionary, and
`get_actions` is the numpy conversion of the first component of `forward`
(with the defaults `reparameterize=False`, `return_log_prob=False`). -/
theorem get_action_first_row_of_get_actions {Graph : Type}
    (P : Graph_TanhGaussianPolicy Graph) (lp : LogProbFn) (g : Graph)
    (deterministic : Bool) (eps : Tensor2) :
    P.get_action lp g deterministic eps
      = (npRow0 (P.get_actions lp g deterministic eps)).map
          (fun a => (a, ([] : InfoDict)))
    ∧ P.get_actions lp g deterministic eps
      = np_ify (P.forward lp g false deterministic false eps).action :=
  ⟨rfl, rfl⟩

/-- C9: no method mutates the policy state: in the effectful views, `forward`,
`get_actions`, `get_action` and both `MakeDeterministic` methods return the
receiver (all attributes of `__init__` included) unchanged; moreover
`get_actions` runs its forward pass with gradient recording off whatever the
ambient mode (its `@torch.no_grad()` decorator), while a bare `forward` call
records exactly when the ambient mode is on. -/
theorem methods_preserve_state {Graph : Type}
    (P : Graph_TanhGaussianPolicy Graph) (w : MakeDeterministic Graph)
    (lp : LogProbFn) (gradMode : Bool) (g : Graph)
    (rep det rlp : Bool) (eps : Tensor2) :
    (P.forward_eff lp gradMode g rep det rlp eps).1 = P
    ∧ (P.get_actions_eff lp gradMode g det eps).1 = P
    ∧ (P.get_action_eff lp gradMode g det eps).1 = P
    ∧ (w.get_action_eff lp gradMode g eps).1 = w
    ∧ (w.get_actions_eff lp gradMode g eps).1 = w
    ∧ (P.get_actions_eff lp gradMode g det eps).2.2 = false
    ∧ (P.forward_eff lp gradMode g rep det rlp eps).2.2 = gradMode :=
  ⟨rfl, rfl, rfl, rfl, rfl, rfl, rfl⟩

/-- C10: no operation raises, catches, or validates on its own: in the
exception-aware views where the graph-module collaborator may fail, every
operation is exactly the collaborator's outcome mapped through a total pure
function, so an error can only originate in the collaborator, and the
`MakeDeterministic` views are plain delegations. -/
theorem operations_pass_through_errors {Graph : Type}
    (mEx : Graph → Except String Tensor2) (lp : LogProbFn) (g : Graph)
    (rep det rlp : Bool) (eps : Tensor2) :
    forward_ex mEx lp g rep det rlp eps
      = (mEx g).map (fun out => forwardVec lp out rep det rlp eps)
    ∧ get_actions_ex mEx lp g det eps
      = (mEx g).map (fun out => np_ify (forwardVec lp out false det false eps).action)
    ∧ get_action_ex mEx lp g det eps
      = (mEx g).map (fun out =>
          (npRow0 (np_ify (forwardVec lp out false det false eps).action)).map
            (fun a => (a, ([] : InfoDict))))
    ∧ makeDeterministic_get_action_ex mEx lp g eps = get_action_ex mEx lp g true eps
    ∧ makeDeterministic_get_actions_ex mEx lp g eps = get_actions_ex mEx lp g true eps := by
  refine ⟨?_, ?_, ?_, rfl, rfl⟩ <;>
    cases h : mEx g <;>
      simp [forward_ex, get_actions_ex, get_action_ex, h, Except.map,
        Except.bind, bind, pure, Except.pure]

/-- C2: every component of the action returned by `forward` lies in the open
interval `(-1, 1)`, for every setting of the flags: the deterministic branch
returns `tanh(mean)` and the stochastic branch a tanh-squashed Gaussian
draw. -/
theorem forward_action_mem_Ioo {Graph : Type}
    (P : Graph_TanhGaussianPolicy Graph) (lp : LogProbFn) (g : Graph)
    (rep det rlp : Bool) (eps : Tensor2) (row : List ℝ)
    (hrow : row ∈ (P.forward lp g rep det rlp eps).action)
    (a : ℝ) (ha : a ∈ row) : -1 < a ∧ a < 1 := by
  rw [forward_action_eq_tanh] at hrow
  obtain ⟨x, rfl⟩ := mem_tmap hrow ha
  exact tanh_mem_Ioo x

/-- C2, evaluated: the one-point policy `P0` with deterministic flag produces
the action entry `tanh 0`, which lies in `(-1, 1)`. -/
theorem forward_action_mem_Ioo_witness : -1 < Real.tanh 0 ∧ Real.tanh 0 < 1 := by
  refine forward_action_mem_Ioo P0 lp0 () false true false [[0]]
    [Real.tanh 0] ?_ (Real.tanh 0) ?_
  · simp [P0, GT0, Graph_TanhGaussianPolicy.forward, forwardVec,
      tensor_split2, tensor_split2_row, tmap]
  · simp

/-- C3: a policy built by `__init__` has a `GraphTransformer` of output
dimension `2 * action_dim`, and `forward` obtains `mean` and `log_std` from
the two halves of the module output split along the last dimension (the
second clamped), each half of size `action_dim`. -/
theorem init_splits_transformer_output {Graph : Type}
    (mkGT : GTConfig → GraphTransformer Graph)
    (hGT : ∀ cfg, (mkGT cfg).cfg = cfg)
    (i e c s l a : Nat)
    (P : Graph_TanhGaussianPolicy Graph)
    (hP : P = Graph_TanhGaussianPolicy.init mkGT i e c s l a)
    (lp : LogProbFn) (g : Graph) (rep det rlp : Bool) (eps : Tensor2)
    (r : List ℝ) (hr : r ∈ (P.forward lp g rep det rlp eps).mean)
    (r2 : List ℝ) (hr2 : r2 ∈ (P.forward lp g rep det rlp eps).log_std) :
    P.module.cfg.out_dim = 2 * a
    ∧ (P.forward lp g rep det rlp eps).mean = (tensor_split2 (P.module.apply g)).1
    ∧ (P.forward lp g rep det rlp eps).log_std
        = tmap (fun x => clamp x LOG_SIG_MIN LOG_SIG_MAX)
            (tensor_split2 (P.module.apply g)).2
    ∧ r.length = a
    ∧ r2.length = a := by
  obtain ⟨hm, hl, _⟩ := forward_moments P lp g rep det rlp eps
  have hout : P.module.cfg.out_dim = 2 * a := by
    subst hP
    simp [Graph_TanhGaussianPolicy.init, hGT]
  refine ⟨hout, hm, hl, ?_, ?_⟩
  · rw [hm] at hr
    simp only [tensor_split2] at hr
    rcases List.mem_map.mp hr with ⟨r0, hr0, rfl⟩
    have hlen : r0.length = 2 * a := by
      rw [← hout]
      exact P.module.h_out g r0 hr0
    simp [tensor_split2_row, hlen]
    omega
  · rw [hl] at hr2
    simp only [tmap, tensor_split2] at hr2
    rcases List.mem_map.mp hr2 with ⟨r1, hr1, rfl⟩
    rcases List.mem_map.mp hr1 with ⟨r0, hr0, rfl⟩
    have hlen : r0.length = 2 * a := by
      rw [← hout]
      exact P.module.h_out g r0 hr0
    simp [tensor_split2_row, hlen]
    omega

/-- C3, evaluated: the policy built by `__init__` from the concrete transformer
constructor `mkGT0` with `action_dim = 1` has module output dimension `2`, and
the mean and log-std halves produced by `forward` each have one entry. -/
theorem init_splits_transformer_output_witness :
    (Graph_TanhGaussianPolicy.init mkGT0 1 1 1 1 1 1).module.cfg.out_dim = 2 * 1
    ∧ [(0 : ℝ)].length = 1
    ∧ [clamp 0 LOG_SIG_MIN LOG_SIG_MAX].length = 1 := by
  have h := init_splits_transformer_output mkGT0 (fun cfg => rfl) 1 1 1 1 1 1
    (Graph_TanhGaussianPolicy.init mkGT0 1 1 1 1 1 1) rfl lp0 () false false false
    [[0]] [(0 : ℝ)] ?_ [clamp 0 LOG_SIG_MIN LOG_SIG_MAX] ?_
  · exact ⟨h.1, h.2.2.2.1 ▸ rfl, h.2.2.2.2 ▸ rfl⟩
  · simp [Graph_TanhGaussianPolicy.init, mkGT0, Graph_TanhGaussianPolicy.forward,
      forwardVec, tensor_split2, tensor_split2_row, tmap,
      TanhNormal.sample, TanhNormal.pre_tanh, tzip, List.replicate]
  · simp [Graph_TanhGaussianPolicy.init, mkGT0, Graph_TanhGaussianPolicy.forward,
      forwardVec, tensor_split2, tensor_split2_row, tmap,
      TanhNormal.sample, TanhNormal.pre_tanh, tzip, List.replicate]

/-- C6: every component of the `log_std` returned by `forward` lies in
`[LOG_SIG_MIN, LOG_SIG_MAX] = [-20, 2]`, and every component of the returned
`std` is strictly positive and lies in `[exp(-20), exp(2)]`. -/
theorem forward_log_std_and_std_bounded {Graph : Type}
    (P : Graph_TanhGaussianPolicy Graph) (lp : LogProbFn) (g : Graph)
    (rep det rlp : Bool) (eps : Tensor2)
    (row : List ℝ) (hrow : row ∈ (P.forward lp g rep det rlp eps).log_std)
    (x : ℝ) (hx : x ∈ row)
    (rowS : List ℝ) (hrowS : rowS ∈ (P.forward lp g rep det rlp eps).std)
    (sv : ℝ) (hs : sv ∈ rowS) :
    (LOG_SIG_MIN ≤ x ∧ x ≤ LOG_SIG_MAX)
    ∧ (Real.exp LOG_SIG_MIN ≤ sv ∧ sv ≤ Real.exp LOG_SIG_MAX ∧ 0 < sv) := by
  obtain ⟨_, hl, hstd⟩ := forward_moments P lp g rep det rlp eps
  rw [hl] at hrow
  rw [hstd, tmap_tmap] at hrowS
  obtain ⟨y, rfl⟩ := mem_tmap hrow hx
  obtain ⟨z, rfl⟩ := mem_tmap hrowS hs
  refine ⟨clamp_log_sig_bounds y, ?_, ?_, Real.exp_pos _⟩
  · exact Real.exp_le_exp.mpr (clamp_log_sig_bounds z).1
  · exact Real.exp_le_exp.mpr (clamp_log_sig_bounds z).2

/-- C6, evaluated: on the one-point policy `P0`, the log-std entry
`clamp 0 LOG_SIG_MIN LOG_SIG_MAX` is in `[-20, 2]` and the std entry is its
exponential, positive and within `[exp(-20), exp(2)]`. -/
theorem forward_log_std_and_std_bounded_witness :
    (LOG_SIG_MIN ≤ clamp 0 LOG_SIG_MIN LOG_SIG_MAX
      ∧ clamp 0 LOG_SIG_MIN LOG_SIG_MAX ≤ LOG_SIG_MAX)
    ∧ (Real.exp LOG_SIG_MIN ≤ Real.exp (clamp 0 LOG_SIG_MIN LOG_SIG_MAX)
      ∧ Real.exp (clamp 0 LOG_SIG_MIN LOG_SIG_MAX) ≤ Real.exp LOG_SIG_MAX
      ∧ 0 < Real.exp (clamp 0 LOG_SIG_MIN LOG_SIG_MAX)) := by
  refine forward_log_std_and_std_bounded P0 lp0 () false true false [[0]]
    [clamp 0 LOG_SIG_MIN LOG_SIG_MAX] ?_ (clamp 0 LOG_SIG_MIN LOG_SIG_MAX) ?_
    [Real.exp (clamp 0 LOG_SIG_MIN LOG_SIG_MAX)] ?_
    (Real.exp (clamp 0 LOG_SIG_MIN LOG_SIG_MAX)) ?_
  · simp [P0, GT0, Graph_TanhGaussianPolicy.forward, forwardVec,
      tensor_split2, tensor_split2_row, tmap]
  · simp
  · simp [P0, GT0, Graph_TanhGaussianPolicy.forward, forwardVec,
      tensor_split2, tensor_split2_row, tmap]
  · simp

end GraphPearl
